import Mathlib

/-!
Verification development for the AlphaForge analytics core.

The definitions below are a shallow embedding of the Python sources:
  * `backend/kelly_criterion.py` (`KellyCriterion`),
  * `backend/regime_detector.py` (`MarketRegimeDetector`),
  * `backend/multi_timeframe_engine.py` (`MultiTimeframeEngine`),
  * `backend/enhanced_signal_generator.py` (`EnhancedSignalGenerator`),
  * `backend/instrument_config.py` (`InstrumentConfig`),
  * `backend/backtesting/backtest_oanda.py` (`OANDABacktestEngine`).

Machine floats are modelled by `ℚ`; pandas DataFrames of candles are
abstracted where noted in the individual doc comments.  Dictionary results
are modelled by structures, string tags by inductive types.
-/

/-! ## Kelly criterion (backend/kelly_criterion.py) -/

/-- One entry of `KellyCriterion.trade_results`, exactly the dict built by
`add_trade_result` (kelly_criterion.py lines 42-52). -/
structure TradeResult where
  win : Bool
  profit : ℚ
  win_amount : ℚ
  loss_amount : ℚ
  risk : ℚ
deriving DecidableEq, Repr

/-- `self.default_risk = 0.02` (kelly_criterion.py line 30). -/
def default_risk : ℚ := 1/50

/-- `self.min_risk = 0.005` (kelly_criterion.py line 31). -/
def min_risk : ℚ := 1/200

/-- `self.max_risk = 0.03` (kelly_criterion.py line 32). -/
def max_risk : ℚ := 3/100

/-- `kelly_fraction = 0.25` safety multiplier (kelly_criterion.py lines 17, 26). -/
def kelly_safety_fraction : ℚ := 1/4

/-- `KellyCriterion.add_trade_result` (kelly_criterion.py lines 34-52): classify
the trade (`win = profit_loss > 0`, `loss_amount = |pl|` if `pl < 0` else the
full `risk_amount`) and append it to the `deque(maxlen=lookback)`, which drops
the oldest entries from the front when the bound is exceeded. -/
def add_trade_result (window : List TradeResult) (lookback : ℕ)
    (profit_loss risk_amount : ℚ) : List TradeResult :=
  let r : TradeResult :=
    { win := decide (0 < profit_loss)
      profit := profit_loss
      win_amount := if 0 < profit_loss then |profit_loss| else 0
      loss_amount := if profit_loss < 0 then |profit_loss| else risk_amount
      risk := risk_amount }
  let w := window ++ [r]
  w.drop (w.length - lookback)

/-- Number of winning entries, `sum(t['win'] for t in self.trade_results)`
(kelly_criterion.py line 76). -/
def wins (w : List TradeResult) : ℕ := (w.filter (fun t => t.win)).length

/-- `KellyCriterion.calculate_optimal_fraction` (kelly_criterion.py lines
56-123).  Fewer than 20 samples → default risk; zero wins → minimum risk; all
wins → maximum risk; otherwise quarter-Kelly clamped to
`[min_risk, max_risk]`; a zero average loss falls back to the default risk. -/
def calculate_optimal_fraction (window : List TradeResult) : ℚ :=
  if window.length < 20 then default_risk
  else
    let w := wins window
    let total := window.length
    if w = 0 then min_risk
    else if w = total then max_risk
    else
      let p : ℚ := (w : ℚ) / (total : ℚ)
      let q : ℚ := 1 - p
      let winning := window.filter (fun t => t.win)
      let losing := window.filter (fun t => !t.win)
      let avg_win : ℚ :=
        if winning ≠ [] then (winning.map (fun t => t.win_amount)).sum / winning.length else 0
      let avg_loss : ℚ :=
        if losing ≠ [] then (losing.map (fun t => t.loss_amount)).sum / losing.length else 1
      if avg_loss = 0 then default_risk
      else
        let b := avg_win / avg_loss
        let kelly_full := (p * b - q) / b
        let kelly_safe := kelly_full * kelly_safety_fraction
        max min_risk (min max_risk kelly_safe)

/-- The win rate as computed by the sizer: `wins / total`, `0` for an empty
window (kelly_criterion.py lines 91, 180-182). -/
def win_rate (w : List TradeResult) : ℚ :=
  if w.length = 0 then 0 else (wins w : ℚ) / (w.length : ℚ)

/-! ## Market regimes (backend/regime_detector.py) -/

/-- The `MarketRegime` enum (regime_detector.py lines 16-25). -/
inductive MarketRegime
  | trending_up_high_vol
  | trending_up_low_vol
  | trending_down_high_vol
  | trending_down_low_vol
  | ranging_high_vol
  | ranging_low_vol
  | transitional
  | unknown
deriving DecidableEq, Repr

/-- The three supported instruments (multi_timeframe_engine.py lines 41-45). -/
inductive Instrument
  | gbp_usd
  | xau_usd
  | usd_jpy
deriving DecidableEq, Repr

/-- Per-instrument volatility thresholds (regime_detector.py lines 46-50). -/
structure VolThresholds where
  high : ℚ
  low : ℚ
deriving DecidableEq, Repr

/-- `self.volatility_thresholds` lookup (regime_detector.py lines 46-50). -/
def volatility_thresholds : Instrument → VolThresholds
  | .gbp_usd => ⟨15/10000, 8/10000⟩
  | .xau_usd => ⟨15/1000, 8/1000⟩
  | .usd_jpy => ⟨8/1000, 4/1000⟩

/-- `self.trending_adx = 25` (regime_detector.py line 53). -/
def trending_adx : ℚ := 25

/-- `self.ranging_adx = 20` (regime_detector.py line 54). -/
def ranging_adx : ℚ := 20

/-- One row of the feature frame produced by `_calculate_regime_features`,
restricted to the fields the classification rules read (`adx`, `volatility`,
`returns`; regime_detector.py lines 262-264).  The pandas feature computation
itself (rolling statistics over the candle frame) is abstracted: the
classifier functions below receive the resulting rows. -/
structure FeatRow where
  adx : ℚ
  volatility : ℚ
  returns : ℚ
deriving DecidableEq, Repr

/-- `MarketRegimeDetector._rule_based_regime_detection` (regime_detector.py
lines 250-288): classify from ADX level, return sign and the instrument's
high-volatility threshold. -/
def rule_based_regime_detection (f : FeatRow) (inst : Instrument) : MarketRegime :=
  let thr := volatility_thresholds inst
  let is_high_vol := thr.high < f.volatility
  if trending_adx < f.adx then
    if 0 < f.returns then
      if is_high_vol then .trending_up_high_vol else .trending_up_low_vol
    else
      if is_high_vol then .trending_down_high_vol else .trending_down_low_vol
  else if f.adx < ranging_adx then
    if is_high_vol then .ranging_high_vol else .ranging_low_vol
  else .transitional

/-- `MarketRegimeDetector._map_regime_to_condition` (regime_detector.py lines
194-248): posterior confidence below 0.6 forces `transitional`, otherwise the
GMM cluster index and the volatility level select the label. -/
def map_regime_to_condition (cluster : ℕ) (f : FeatRow) (confidence : ℚ)
    (inst : Instrument) : MarketRegime :=
  if confidence < 3/5 then .transitional
  else
    let is_high_vol := (volatility_thresholds inst).high < f.volatility
    if cluster = 0 then
      if is_high_vol then .trending_up_high_vol else .trending_up_low_vol
    else if cluster = 1 then
      if is_high_vol then .trending_down_high_vol else .trending_down_low_vol
    else if cluster = 2 then
      if is_high_vol then .ranging_high_vol else .ranging_low_vol
    else .transitional

/-- Which return path of `detect_regime` produced the result. -/
inductive DetectPath
  | insufficient_data
  | no_features
  | gmm
  | rule_based
deriving DecidableEq, Repr

/-- `MarketRegimeDetector.detect_regime` (regime_detector.py lines 56-127),
with the GMM fit/predict calls abstracted by oracles: `fit_ok` tells whether
`self.gmm.fit` would succeed (its exception path falls back to the rule-based
classifier), and `gmm_pred = some (cluster, confidence)` models a successful
`predict`/`predict_proba`, `none` its exception path.  `df_rows` is the length
of the input DataFrame, `features` the result of
`_calculate_regime_features` (`none` for its failure/empty result).  Every
Python exception is caught inside `detect_regime`, so the embedding is a total
function; the second component records the return path taken. -/
def detect_regime (df_rows : ℕ) (features : Option (List FeatRow))
    (is_fitted fit_ok : Bool) (gmm_pred : Option (ℕ × ℚ)) (inst : Instrument) :
    MarketRegime × DetectPath :=
  if df_rows < 50 then (.unknown, .insufficient_data)
  else
    match features with
    | none => (.unknown, .no_features)
    | some fs =>
      if fs.length < 20 then (.unknown, .no_features)
      else
        match fs.getLast? with
        | none => (.unknown, .no_features)
        | some last =>
          if is_fitted = false ∧ 100 ≤ fs.length ∧ fit_ok = false then
            (rule_based_regime_detection last inst, .rule_based)
          else if is_fitted = true ∨ (100 ≤ fs.length ∧ fit_ok = true) then
            match gmm_pred with
            | some (c, conf) => (map_regime_to_condition c last conf inst, .gmm)
            | none => (rule_based_regime_detection last inst, .rule_based)
          else (rule_based_regime_detection last inst, .rule_based)

/-- `MarketRegimeDetector.should_trade` (regime_detector.py lines 290-306):
false exactly on the unfavorable set {ranging-high-volatility, unknown}. -/
def should_trade (regime : MarketRegime) : Bool :=
  match regime with
  | .ranging_high_vol => false
  | .unknown => false
  | _ => true

/-- `MarketRegimeDetector.get_position_multiplier` (regime_detector.py lines
308-329). -/
def get_position_multiplier (regime : MarketRegime) : ℚ :=
  match regime with
  | .trending_up_low_vol => 12/10
  | .trending_down_low_vol => 12/10
  | .trending_up_high_vol => 9/10
  | .trending_down_high_vol => 9/10
  | .ranging_low_vol => 8/10
  | .ranging_high_vol => 1/2
  | .transitional => 6/10
  | .unknown => 1/2

/-! ## Multi-timeframe aggregation (backend/multi_timeframe_engine.py) -/

/-- The aggregate decision tag: the `'BUY'` / `'SELL'` / `'NO_ACTION'` strings
of `generate_multi_timeframe_signal`. -/
inductive SignalType
  | buy
  | sell
  | no_action
deriving DecidableEq, Repr

/-- The `latest_data` dict of a timeframe analysis, restricted to the fields
the aggregator and the backtest read (`atr`, `atr_pct`, `adx`;
multi_timeframe_engine.py lines 457-467). -/
structure LatestData where
  atr : ℚ
  atr_pct : ℚ
  adx : ℚ
deriving DecidableEq, Repr

/-- The output of `MultiTimeframeEngine.analyze_timeframe`
(multi_timeframe_engine.py lines 277-468), abstracted to the fields the
aggregator consumes.  `latest = none` models the empty `latest_data` dict of
the insufficient-data early return (fewer than 50 candles, lines 294-302);
the indicator computation over the candle frame itself is abstracted: the
aggregator below receives these per-timeframe analysis results. -/
structure TFAnalysis where
  buy_votes : ℚ
  sell_votes : ℚ
  strength : ℚ
  latest : Option LatestData
deriving DecidableEq, Repr

/-- The `instrument_data` dict handed to `generate_multi_timeframe_signal`,
post-analysis: at most one analysis per configured timeframe, `none` for a
missing or empty timeframe (skipped by the `df is not None and not df.empty`
guard, multi_timeframe_engine.py line 514). -/
structure MTFInput where
  m5 : Option TFAnalysis
  m15 : Option TFAnalysis
  h1 : Option TFAnalysis
deriving DecidableEq, Repr

/-- The fixed per-timeframe weights: M5 0.20, M15 0.30, H1 0.50
(multi_timeframe_engine.py lines 48-67). -/
def m5_weight : ℚ := 1/5

/-- M15 weight 0.30 (multi_timeframe_engine.py line 58). -/
def m15_weight : ℚ := 3/10

/-- H1 weight 0.50 (multi_timeframe_engine.py line 64). -/
def h1_weight : ℚ := 1/2

/-- The present timeframes with their weights, in the engine's iteration
order M5, M15, H1 (multi_timeframe_engine.py lines 513-532). -/
def present_timeframes (d : MTFInput) : List (ℚ × TFAnalysis) :=
  (match d.m5 with | some a => [(m5_weight, a)] | none => []) ++
  (match d.m15 with | some a => [(m15_weight, a)] | none => []) ++
  (match d.h1 with | some a => [(h1_weight, a)] | none => [])

/-- `total_weight` accumulated over the present timeframes
(multi_timeframe_engine.py line 532). -/
def total_weight (d : MTFInput) : ℚ :=
  ((present_timeframes d).map (fun wa => wa.1)).sum

/-- `avg_buy_votes = total_buy_votes / total_weight`, `0` when no timeframe is
present (multi_timeframe_engine.py lines 535-540). -/
def avg_buy_votes (d : MTFInput) : ℚ :=
  if 0 < total_weight d then
    ((present_timeframes d).map (fun wa => wa.2.buy_votes * wa.1)).sum / total_weight d
  else 0

/-- `avg_sell_votes`, symmetric to `avg_buy_votes`
(multi_timeframe_engine.py lines 531, 537). -/
def avg_sell_votes (d : MTFInput) : ℚ :=
  if 0 < total_weight d then
    ((present_timeframes d).map (fun wa => wa.2.sell_votes * wa.1)).sum / total_weight d
  else 0

/-- The decision rule (multi_timeframe_engine.py lines 548-557): BUY when
`avg_buy_votes ≥ min_votes_required` and it strictly dominates, SELL
symmetric, otherwise NO_ACTION. -/
def vote_decision (min_votes_required : ℚ) (d : MTFInput) : SignalType :=
  if min_votes_required ≤ avg_buy_votes d ∧ avg_sell_votes d < avg_buy_votes d then .buy
  else if min_votes_required ≤ avg_sell_votes d ∧ avg_buy_votes d < avg_sell_votes d then .sell
  else .no_action

/-- The strength computed alongside the decision, before the filter override
(multi_timeframe_engine.py lines 548-560): the dominant (resp. maximal)
average vote total over 6, times 100. -/
def pre_strength (min_votes_required : ℚ) (d : MTFInput) : ℚ :=
  match vote_decision min_votes_required d with
  | .buy => avg_buy_votes d / 6 * 100
  | .sell => avg_sell_votes d / 6 * 100
  | .no_action => max (avg_buy_votes d) (avg_sell_votes d) / 6 * 100

/-- Per-timeframe net direction used by `_calculate_voting_agreement`
(multi_timeframe_engine.py lines 609-615): BUY when the buy votes exceed the
sell votes by more than 0.5, SELL symmetric, otherwise NEUTRAL. -/
inductive TFDirection
  | buy
  | sell
  | neutral
deriving DecidableEq, Repr

/-- The direction of one timeframe analysis
(multi_timeframe_engine.py lines 610-615). -/
def tf_direction (a : TFAnalysis) : TFDirection :=
  if a.sell_votes + 1/2 < a.buy_votes then .buy
  else if a.buy_votes + 1/2 < a.sell_votes then .sell
  else .neutral

/-- `MultiTimeframeEngine._calculate_voting_agreement`
(multi_timeframe_engine.py lines 594-626): the share of the most common
direction — BUY, SELL or NEUTRAL — among the present timeframes, `0.0` when
none is present. -/
def calculate_voting_agreement (d : MTFInput) : ℚ :=
  let dirs := (present_timeframes d).map (fun wa => tf_direction wa.2)
  if dirs = [] then 0
  else
    let buy_count := dirs.count .buy
    let sell_count := dirs.count .sell
    let neutral_count := dirs.count .neutral
    (max buy_count (max sell_count neutral_count) : ℚ) / (dirs.length : ℚ)

/-- The entries of the `reasons` list built by `_apply_signal_filters`,
with the embedded measurement text abstracted to tags
(multi_timeframe_engine.py lines 657, 674, 691-693, 699, 709, 720). -/
inductive FilterReason
  | no_signal_generated
  | no_m5_data
  | volatility_too_low
  | volatility_too_high
  | strength_too_weak
  | weak_trend
  | all_passed
deriving DecidableEq, Repr

/-- The dict returned by `_apply_signal_filters`
(multi_timeframe_engine.py lines 654-732).  `raw = some (atr_pct, adx,
strength)` models the three extra keys present only on the main path (lines
729-731); the two early returns carry no such keys (`raw = none`). -/
structure FilterResults where
  passed : Bool
  reasons : List FilterReason
  volatility_ok : Bool
  strength_ok : Bool
  adx_ok : Bool
  spread_ok : Bool
  raw : Option (ℚ × ℚ × ℚ)
deriving DecidableEq, Repr

/-- `MultiTimeframeEngine._apply_signal_filters`
(multi_timeframe_engine.py lines 628-732): NO_ACTION and a missing M5 frame
fail outright; otherwise volatility must satisfy `0.02 ≤ atr_pct ≤ 1.0`,
strength must reach `min_strength`, ADX must reach 25, and the spread check
always passes.  `atr_pct` and `adx` are read from the M5 analysis's
`latest_data` dict with default `0`. -/
def apply_signal_filters (min_strength : ℚ) (signal_type : SignalType)
    (strength : ℚ) (m5 : Option TFAnalysis) : FilterResults :=
  if signal_type = .no_action then
    { passed := false, reasons := [.no_signal_generated], volatility_ok := false,
      strength_ok := false, adx_ok := false, spread_ok := false, raw := none }
  else
    match m5 with
    | none =>
      { passed := false, reasons := [.no_m5_data], volatility_ok := false,
        strength_ok := false, adx_ok := false, spread_ok := false, raw := none }
    | some a =>
      let atr_pct := match a.latest with | some l => l.atr_pct | none => 0
      let adx := match a.latest with | some l => l.adx | none => 0
      let volatility_ok : Bool := decide ((1/50 : ℚ) ≤ atr_pct ∧ atr_pct ≤ 1)
      let strength_ok : Bool := decide (min_strength ≤ strength)
      let adx_ok : Bool := decide ((25 : ℚ) ≤ adx)
      let spread_ok : Bool := true
      let passed := volatility_ok && strength_ok && adx_ok && spread_ok
      let reasons :=
        (if volatility_ok then []
         else if atr_pct < 1/50 then [FilterReason.volatility_too_low]
         else [FilterReason.volatility_too_high]) ++
        (if strength_ok then [] else [FilterReason.strength_too_weak]) ++
        (if adx_ok then [] else [FilterReason.weak_trend]) ++
        (if passed then [FilterReason.all_passed] else [])
      { passed := passed, reasons := reasons, volatility_ok := volatility_ok,
        strength_ok := strength_ok, adx_ok := adx_ok, spread_ok := spread_ok,
        raw := some (atr_pct, adx, strength) }

/-- The dict returned by `generate_multi_timeframe_signal`
(multi_timeframe_engine.py lines 581-592), restricted to the fields the
callers and the claims read. -/
structure MTFSignal where
  signal : SignalType
  buy_votes : ℚ
  sell_votes : ℚ
  strength : ℚ
  confidence : ℚ
  agreement : ℚ
  passed_filters : Bool
  filter_results : FilterResults
  market_regime : MarketRegime
deriving DecidableEq, Repr

/-- `MultiTimeframeEngine.generate_multi_timeframe_signal`
(multi_timeframe_engine.py lines 470-592): weighted vote aggregation, the
decision rule, confidence = total present weight, voting agreement, then the
quality-filter gate, whose failure overrides the signal to NO_ACTION with
zero strength while the filter dict is returned unchanged.  The empty-dict
early return (lines 494-505) is unreachable through `generate_signal`, which
requires the M5 key; an absent timeframe is modelled as `none` here. -/
def generate_multi_timeframe_signal (min_votes_required min_strength : ℚ)
    (d : MTFInput) (regime : MarketRegime) : MTFSignal :=
  let sigtype := vote_decision min_votes_required d
  let strength0 := pre_strength min_votes_required d
  let fr := apply_signal_filters min_strength sigtype strength0 d.m5
  { signal := if fr.passed then sigtype else .no_action
    buy_votes := avg_buy_votes d
    sell_votes := avg_sell_votes d
    strength := if fr.passed then strength0 else 0
    confidence := total_weight d
    agreement := calculate_voting_agreement d
    passed_filters := fr.passed
    filter_results := fr
    market_regime := regime }

/-- Agreement as the specification's sentence defines it (spec §4.3): the
fraction of timeframes whose own net vote direction matches the aggregate
signal direction, a timeframe whose buy and sell votes differ by 0.5 or less
counting as NEUTRAL and never matching; an aggregate without a direction is
matched by no timeframe.  This definition follows the spec's words, for
comparison against `calculate_voting_agreement` above. -/
def spec_agreement (d : MTFInput) (aggregate : SignalType) : ℚ :=
  let dirs := (present_timeframes d).map (fun wa => tf_direction wa.2)
  if dirs = [] then 0
  else
    match aggregate with
    | .buy => (dirs.count TFDirection.buy : ℚ) / (dirs.length : ℚ)
    | .sell => (dirs.count TFDirection.sell : ℚ) / (dirs.length : ℚ)
    | .no_action => 0

/-- The most-common-direction fraction: the quantity
`_calculate_voting_agreement` actually computes, stated independently of the
aggregate decision. -/
def most_common_direction_fraction (dirs : List TFDirection) : ℚ :=
  if dirs = [] then 0
  else (max (dirs.count .buy) (max (dirs.count .sell) (dirs.count .neutral)) : ℚ) /
    (dirs.length : ℚ)

/-! ## Instrument SL/TP configuration (backend/instrument_config.py) -/

/-- The `sl_dollars` column of `InstrumentConfig.CONFIGS`
(instrument_config.py lines 15-52). -/
def sl_dollars : Instrument → ℚ
  | .xau_usd => 9/2
  | .gbp_usd => 12/10000
  | .usd_jpy => 17/100

/-- The `tp_dollars` column of `InstrumentConfig.CONFIGS`
(instrument_config.py lines 15-52). -/
def tp_dollars : Instrument → ℚ
  | .xau_usd => 15
  | .gbp_usd => 25/10000
  | .usd_jpy => 52/100

/-- Stop-loss / take-profit levels from `InstrumentConfig.calculate_sltp`
(instrument_config.py lines 60-98), restricted to the price levels. -/
structure SLTPLevels where
  stop_loss : ℚ
  take_profit : ℚ
deriving DecidableEq, Repr

/-- `InstrumentConfig.calculate_sltp` (instrument_config.py lines 60-98):
dollar-distance levels around the entry; an invalid direction raises
`ValueError`, modelled by `none`. -/
def calculate_sltp (inst : Instrument) (entry_price : ℚ) (direction : SignalType) :
    Option SLTPLevels :=
  match direction with
  | .buy => some ⟨entry_price - sl_dollars inst, entry_price + tp_dollars inst⟩
  | .sell => some ⟨entry_price + sl_dollars inst, entry_price - tp_dollars inst⟩
  | .no_action => none

/-! ## Signal generator (backend/enhanced_signal_generator.py) -/

/-- The `reason` strings of the SKIP results of
`EnhancedSignalGenerator.generate_signal`, as tags
(enhanced_signal_generator.py lines 110, 130, 186, 205). -/
inductive SkipReason
  | cooldown_active
  | unfavorable_regime
  | low_strength
  | poor_agreement
deriving DecidableEq, Repr

/-- One entry of `self.signal_history[instrument]`, restricted to the fields
the cooldown check reads (enhanced_signal_generator.py lines 96-105):
the signal's `timestamp` (modelled in hours) and its `tradeable` flag. -/
structure HistoryEntry where
  timestamp : ℚ
  tradeable : Bool
deriving DecidableEq, Repr

/-- The generator's per-instrument mutable state: the signal history list
(enhanced_signal_generator.py lines 52, 289-292). -/
structure GenState where
  history : List HistoryEntry
deriving DecidableEq, Repr

/-- The engine thresholds the backtest injects into the generator
(backtest_oanda.py lines 63-67). -/
structure GenConfig where
  min_votes_required : ℚ
  min_strength : ℚ
deriving DecidableEq, Repr

/-- The cooldown predicate of `generate_signal` step 1.5
(enhanced_signal_generator.py lines 94-113): the most recent history entry is
tradeable, strictly less than 4 hours old, and strictly in the past. -/
def cooldown_active (st : GenState) (now : ℚ) : Bool :=
  match st.history.getLast? with
  | none => false
  | some e => e.tradeable && decide (0 < now - e.timestamp) && decide (now - e.timestamp < 4)

/-- The outcome of one `generate_signal` call: a SKIP dict with its reason, or
a complete tradeable signal carrying the fields the backtest consumes
(direction, strength, the M5 ATR behind `timeframe_signals`) plus the
generator's own entry and SL/TP levels. -/
inductive SignalResult
  | skip (reason : SkipReason)
  | complete (direction : SignalType) (strength atr entry_price stop_loss take_profit : ℚ)
deriving DecidableEq, Repr

/-- `EnhancedSignalGenerator.generate_signal`
(enhanced_signal_generator.py lines 66-300) for one instrument, with the data
fetch replaced by the injected per-timeframe analyses `d` (the backtest's
`provided_data` path) and regime detection abstracted by its result `regime`
(the claims quantify over it).  `none` models the `return None` paths (missing
M5 data, or the `ValueError` of `calculate_sltp` swallowed by the outer
`except`).  Control flow in source order: cooldown short-circuit before any
analysis; unfavorable-regime gate; multi-timeframe aggregation; strength < 25
gate; agreement < 0.5 gate; otherwise the complete signal is built and
appended to the history, which is trimmed to its last 100 entries. -/
def generate_signal (cfg : GenConfig) (st : GenState) (now : ℚ) (inst : Instrument)
    (current_price : ℚ) (d : MTFInput) (regime : MarketRegime) :
    Option (SignalResult × GenState) :=
  if d.m5 = none then none
  else if cooldown_active st now then some (.skip .cooldown_active, st)
  else if should_trade regime = false then some (.skip .unfavorable_regime, st)
  else
    let mtf := generate_multi_timeframe_signal cfg.min_votes_required cfg.min_strength d regime
    let atr := match d.m5 with
      | some a => (match a.latest with | some l => l.atr | none => current_price * (1/1000))
      | none => current_price * (1/1000)
    if mtf.strength < 25 then some (.skip .low_strength, st)
    else if mtf.agreement < 1/2 then some (.skip .poor_agreement, st)
    else
      match calculate_sltp inst current_price mtf.signal with
      | none => none
      | some lv =>
        let hist := st.history ++ [⟨now, true⟩]
        some (.complete mtf.signal mtf.strength atr current_price lv.stop_loss lv.take_profit,
              ⟨hist.drop (hist.length - 100)⟩)

/-- True exactly on a complete (accepted, tradeable) `generate_signal`
outcome. -/
def is_accepted : Option (SignalResult × GenState) → Bool
  | some (.complete _ _ _ _ _ _, _) => true
  | _ => false

/-! ## Backtest simulator (backend/backtesting/backtest_oanda.py) -/

/-- One bar of the M5 candle frame the backtest loop iterates, restricted to
the fields the loop and the claims read. -/
structure Bar where
  time : ℚ
  high : ℚ
  low : ℚ
  close : ℚ
deriving DecidableEq, Repr

/-- `self.open_position` (backtest_oanda.py lines 358-369), restricted to the
fields the position lifecycle reads. -/
structure Position where
  direction : SignalType
  entry_price : ℚ
  entry_time : ℚ
  stop_loss : ℚ
  take_profit : ℚ
  position_size : ℚ
  risk_amount : ℚ
deriving DecidableEq, Repr

/-- The `reason` strings of `_close_trade`, as tags
(backtest_oanda.py lines 320, 387, 390, 394, 397). -/
inductive ExitReason
  | stop_loss
  | take_profit
  | end_of_backtest
deriving DecidableEq, Repr

/-- One entry of `self.trades` (backtest_oanda.py lines 438-452), restricted
to the fields the result statistics and the claims read. -/
structure TradeRecord where
  entry_time : ℚ
  exit_time : ℚ
  direction : SignalType
  entry_price : ℚ
  exit_price : ℚ
  position_size : ℚ
  pnl : ℚ
  balance : ℚ
  reason : ExitReason
deriving DecidableEq, Repr

/-- The mutable state of `OANDABacktestEngine` during `run_backtest`
(backtest_oanda.py lines 48-61), plus the embedded generator state and the
accepted-signal counter (`signals_generated - signals_filtered`, which the
loop reports as `Signals accepted`, lines 283-329). -/
structure BTState where
  balance : ℚ
  peak_balance : ℚ
  max_drawdown : ℚ
  open_position : Option Position
  trades : List TradeRecord
  total_trades : ℕ
  winning_trades : ℕ
  losing_trades : ℕ
  total_profit : ℚ
  total_loss : ℚ
  gen : GenState
  signals_accepted : ℕ
deriving DecidableEq, Repr

/-- `OANDABacktestEngine._close_trade` (backtest_oanda.py lines 400-462):
direction-aware P&L at the given exit price, balance update, peak/drawdown
tracking, win/loss counters, and the appended trade record. -/
def close_trade (st : BTState) (exit_price exit_time : ℚ) (reason : ExitReason) : BTState :=
  match st.open_position with
  | none => st
  | some pos =>
    let pnl := if pos.direction = .buy
      then (exit_price - pos.entry_price) * pos.position_size
      else (pos.entry_price - exit_price) * pos.position_size
    let balance := st.balance + pnl
    let peak := if st.peak_balance < balance then balance else st.peak_balance
    let drawdown := (peak - balance) / peak
    let maxdd := if st.max_drawdown < drawdown then drawdown else st.max_drawdown
    let tr : TradeRecord :=
      { entry_time := pos.entry_time
        exit_time := exit_time
        direction := pos.direction
        entry_price := pos.entry_price
        exit_price := exit_price
        position_size := pos.position_size
        pnl := pnl
        balance := balance
        reason := reason }
    { st with
      balance := balance
      peak_balance := peak
      max_drawdown := maxdd
      open_position := none
      trades := st.trades ++ [tr]
      total_trades := st.total_trades + 1
      winning_trades := if 0 < pnl then st.winning_trades + 1 else st.winning_trades
      losing_trades := if 0 < pnl then st.losing_trades else st.losing_trades + 1
      total_profit := if 0 < pnl then st.total_profit + pnl else st.total_profit
      total_loss := if 0 < pnl then st.total_loss else st.total_loss + |pnl| }

/-- `OANDABacktestEngine._update_position` (backtest_oanda.py lines 377-398):
the exit check over the bar's close price (`current_price` is
`df['close'].iloc[i]`, line 243): stop-loss first, then take-profit, else
hold; the trade closes at the stop (resp. take-profit) price itself. -/
def update_position (st : BTState) (current_price current_time : ℚ) : BTState :=
  match st.open_position with
  | none => st
  | some pos =>
    if pos.direction = .buy then
      if current_price ≤ pos.stop_loss then
        close_trade st pos.stop_loss current_time .stop_loss
      else if pos.take_profit ≤ current_price then
        close_trade st pos.take_profit current_time .take_profit
      else st
    else
      if pos.stop_loss ≤ current_price then
        close_trade st pos.stop_loss current_time .stop_loss
      else if current_price ≤ pos.take_profit then
        close_trade st pos.take_profit current_time .take_profit
      else st

/-- `OANDABacktestEngine._open_trade` (backtest_oanda.py lines 337-375):
ATR-based stop/target around the entry, position sized by
`risk_amount / stop_distance`; a non-positive size opens nothing. -/
def open_trade (st : BTState) (direction : SignalType) (entry_price entry_time : ℚ)
    (risk_per_trade atr : ℚ) : BTState :=
  let stop_loss := if direction = .buy then entry_price - atr * (3/2)
    else entry_price + atr * (3/2)
  let take_profit := if direction = .buy then entry_price + atr * 3
    else entry_price - atr * 3
  let risk_amount := st.balance * risk_per_trade
  let stop_distance := |entry_price - stop_loss|
  let position_size := if 0 < stop_distance then risk_amount / stop_distance else 0
  let pos : Position :=
    { direction := direction
      entry_price := entry_price
      entry_time := entry_time
      stop_loss := stop_loss
      take_profit := take_profit
      position_size := position_size
      risk_amount := risk_amount }
  if position_size ≤ 0 then st
  else { st with open_position := some pos }

/-- The configuration of one backtest run (backtest_oanda.py lines 32-46,
185-207). -/
structure BTConfig where
  instrument : Instrument
  risk_per_trade : ℚ
  min_votes_required : ℚ
  min_strength : ℚ
deriving DecidableEq, Repr

/-- One iteration's input: the current bar together with the multi-timeframe
analyses over the history up to it (`mtf_data`, backtest_oanda.py lines
251-261) and the detected regime, both abstracted as inputs because the
indicator pipeline over the candle slices is not re-modelled here. -/
structure BarData where
  bar : Bar
  analysis : MTFInput
  regime : MarketRegime
deriving DecidableEq, Repr

/-- The signal-then-open half of a loop iteration
(backtest_oanda.py lines 269-316): run the generator; a BUY/SELL tradeable
result increments the accepted counter and opens the trade at the bar's
close, with the M5 ATR from the signal's timeframe data. -/
def try_signal (cfg : BTConfig) (st : BTState) (b : BarData) : BTState :=
  match generate_signal ⟨cfg.min_votes_required, cfg.min_strength⟩ st.gen b.bar.time
      cfg.instrument b.bar.close b.analysis b.regime with
  | none => st
  | some (.skip _, g) => { st with gen := g }
  | some (.complete dir _ atr _ _ _, g) =>
    open_trade { st with gen := g, signals_accepted := st.signals_accepted + 1 }
      dir b.bar.close b.bar.time cfg.risk_per_trade atr

/-- One iteration of the `run_backtest` loop (backtest_oanda.py lines
241-316): with a position open, run the exit check and `continue` while it
stays open; otherwise (including the bar on which it just closed) run the
signal step. -/
def bt_step (cfg : BTConfig) (st : BTState) (b : BarData) : BTState :=
  match st.open_position with
  | some _ =>
    let st1 := update_position st b.bar.close b.bar.time
    match st1.open_position with
    | some _ => st1
    | none => try_signal cfg st1 b
  | none => try_signal cfg st b

/-- The engine state at the start of a run (backtest_oanda.py lines 48-61). -/
def init_state (initial_balance : ℚ) : BTState :=
  { balance := initial_balance, peak_balance := initial_balance, max_drawdown := 0,
    open_position := none, trades := [], total_trades := 0, winning_trades := 0,
    losing_trades := 0, total_profit := 0, total_loss := 0, gen := ⟨[]⟩,
    signals_accepted := 0 }

/-- `OANDABacktestEngine.run_backtest` (backtest_oanda.py lines 185-335) over
the post-warm-up bars: fold the loop body, then force-close any remaining
position at the final bar's close price (lines 318-320). -/
def run_backtest (cfg : BTConfig) (initial_balance : ℚ) (bars : List BarData) : BTState :=
  let final := bars.foldl (bt_step cfg) (init_state initial_balance)
  match final.open_position, bars.getLast? with
  | some _, some b => close_trade final b.bar.close b.bar.time .end_of_backtest
  | _, _ => final

/-! ## Concrete example inputs used in the theorems below -/

/-- The `atr_pct` read from an M5 analysis by `_apply_signal_filters`
(`.get('atr_pct', 0)`, multi_timeframe_engine.py line 684). -/
def latest_atr_pct (a : TFAnalysis) : ℚ :=
  match a.latest with | some l => l.atr_pct | none => 0

/-- The `adx` read from an M5 analysis by `_apply_signal_filters`
(`.get('adx', 0)`, multi_timeframe_engine.py line 702). -/
def latest_adx (a : TFAnalysis) : ℚ :=
  match a.latest with | some l => l.adx | none => 0

/-- A timeframe analysis with the given vote totals (the stored per-timeframe
`strength` field plays no role in aggregation). -/
def mk_analysis (b s : ℚ) (l : Option LatestData) : TFAnalysis :=
  { buy_votes := b, sell_votes := s, strength := 0, latest := l }

/-- M5 latest-bar data passing every quality filter: ATR% 0.10 in
[0.02, 1.0], ADX 30 ≥ 25. -/
def sample_latest : LatestData := { atr := 1/100, atr_pct := 1/10, adx := 30 }

/-- Aggregation input whose per-timeframe directions are NEUTRAL, NEUTRAL,
BUY while the weighted aggregate decides BUY: `avg_buy = 3.5`,
`avg_sell = 0.56`. -/
def mixed_direction_input : MTFInput :=
  { m5 := some (mk_analysis 1 1 (some sample_latest))
    m15 := some (mk_analysis 1 (6/5) none)
    h1 := some (mk_analysis 6 0 none) }

/-- Aggregation input with every timeframe voting buy 1 / sell 0:
`avg_buy = 1` below any realistic `min_votes_required`, so the decision is
NO_ACTION with nonzero average votes. -/
def weak_votes_input : MTFInput :=
  { m5 := some (mk_analysis 1 0 (some sample_latest))
    m15 := some (mk_analysis 1 0 none)
    h1 := some (mk_analysis 1 0 none) }

/-- Aggregation input with every timeframe voting buy `v` / sell 0 and the
given M5 ATR: accepted whenever `v` reaches the vote threshold. -/
def strong_votes_input (v atr : ℚ) : MTFInput :=
  { m5 := some (mk_analysis v 0 (some { atr := atr, atr_pct := 1/10, adx := 30 }))
    m15 := some (mk_analysis v 0 none)
    h1 := some (mk_analysis v 0 none) }

/-- A 17-row feature frame (what `_calculate_regime_features` leaves of a
50-row M5 DataFrame after the rolling windows and `dropna`). -/
def short_feature_rows : List FeatRow := List.replicate 17 ⟨20, 1/1000, 0⟩

/-- First of three post-warm-up fixture bars for the vote-threshold
monotonicity claim: votes 2.2 with ATR 0.01 at close 1.  Across the fixture,
bar 2's close 0.998 lies strictly inside this bar's position levels
(0.985, 1.03) but at or below the bar-1 position's stop 0.9985, and bar 2
sits 5 hours after bar 1, past the 4-hour cooldown. -/
def mono_bar0 : BarData :=
  { bar := { time := 0, high := 1, low := 1, close := 1 }
    analysis := strong_votes_input (11/5) (1/100), regime := .trending_up_low_vol }

/-- Second fixture bar: votes 5 with ATR 0.001 at close 1. -/
def mono_bar1 : BarData :=
  { bar := { time := 1, high := 1, low := 1, close := 1 }
    analysis := strong_votes_input 5 (1/1000), regime := .trending_up_low_vol }

/-- Third fixture bar, 5 hours after the second: votes 5 at close 0.998. -/
def mono_bar2 : BarData :=
  { bar := { time := 6, high := 1, low := 99/100, close := 499/500 }
    analysis := strong_votes_input 5 (1/100), regime := .trending_up_low_vol }

/-- The three fixture bars together. -/
def monotonicity_bars : List BarData := [mono_bar0, mono_bar1, mono_bar2]

/-- The position the threshold-2 run opens on `mono_bar0`: stop 0.985,
take-profit 1.03, size 200 / 0.015. -/
def mono2_pos : Position :=
  ⟨.buy, 1, 0, 197/200, 103/100, 40000/3, 200⟩

/-- The state of the threshold-2 run after `mono_bar0`: one accepted signal,
the position above held to the end. -/
def mono2_state : BTState :=
  ⟨10000, 10000, 0, some mono2_pos, [], 0, 0, 0, 0, 0, ⟨[⟨0, true⟩]⟩, 1⟩

/-- The position the threshold-3 run opens on `mono_bar1`: stop 0.9985,
take-profit 1.003, size 200 / 0.0015. -/
def mono3_pos1 : Position :=
  ⟨.buy, 1, 1, 1997/2000, 1003/1000, 400000/3, 200⟩

/-- The state of the threshold-3 run after `mono_bar1`. -/
def mono3_state1 : BTState :=
  ⟨10000, 10000, 0, some mono3_pos1, [], 0, 0, 0, 0, 0, ⟨[⟨1, true⟩]⟩, 1⟩

/-- The stop-loss exit of `mono3_pos1` on `mono_bar2`: P&L −200. -/
def mono3_trade : TradeRecord :=
  ⟨1, 6, .buy, 1, 1997/2000, 400000/3, -200, 9800, .stop_loss⟩

/-- The threshold-3 state right after that stop-loss close. -/
def mono3_state2 : BTState :=
  ⟨9800, 10000, 1/50, none, [mono3_trade], 1, 0, 1, 0, 200, ⟨[⟨1, true⟩]⟩, 1⟩

/-- The position the threshold-3 run re-opens on `mono_bar2` (cooldown has
expired): entry 0.998, stop 0.983, take-profit 1.028, size 196 / 0.015. -/
def mono3_pos2 : Position :=
  ⟨.buy, 499/500, 6, 983/1000, 257/250, 39200/3, 196⟩

/-- The threshold-3 state after `mono_bar2`: two accepted signals. -/
def mono3_state3 : BTState :=
  { mono3_state2 with
    open_position := some mono3_pos2
    gen := ⟨[⟨1, true⟩, ⟨6, true⟩]⟩
    signals_accepted := 2 }

/-- Backtest configuration used with `monotonicity_bars`: 2% risk, minimum
strength 30, and the vote threshold under study. -/
def monotonicity_cfg (v : ℚ) : BTConfig :=
  { instrument := .gbp_usd, risk_per_trade := 1/50, min_votes_required := v,
    min_strength := 30 }

/-- An open BUY position: entry 1, stop 0.985, take-profit 1.03. -/
def held_buy_position : Position :=
  { direction := .buy, entry_price := 1, entry_time := 0, stop_loss := 197/200,
    take_profit := 103/100, position_size := 100, risk_amount := 3/2 }

/-- A backtest state holding `held_buy_position`. -/
def held_state : BTState :=
  { init_state 10000 with open_position := some held_buy_position }

/-- A bar whose low 0.98 touches the held position's stop 0.985 while its
close 1.0 stays strictly between stop and take-profit. -/
def touching_low_bar : BarData :=
  { bar := { time := 1, high := 101/100, low := 49/50, close := 1 }
    analysis := strong_votes_input 5 (1/100), regime := .trending_up_low_vol }

/-- The trade record `add_trade_result` builds for a zero-P&L trade:
`profit_loss = 0` is not `> 0` (no win, zero win amount) and not `< 0`, so
the recorded loss amount is the full risk amount
(kelly_criterion.py lines 42-44). -/
def zero_pl_record (risk_amount : ℚ) : TradeResult :=
  { win := false, profit := 0, win_amount := 0, loss_amount := risk_amount,
    risk := risk_amount }

/-! ## Theorems -/

/-- C9: for every `MarketRegime` value, `should_trade(regime)` returns false
if and only if the regime is ranging-high-volatility or unknown; every other
label, including transitional, is tradeable. -/
theorem C9_should_trade_characterization (regime : MarketRegime) :
    should_trade regime = false ↔
      regime = MarketRegime.ranging_high_vol ∨ regime = MarketRegime.unknown := by
  cases regime <;> simp [should_trade]

/-- C2: for every state of the Kelly sizer's trade window — empty, fewer than
20 samples, all wins, all losses, or mixed — `calculate_optimal_fraction`
returns a value inside `[min_risk, max_risk] = [0.005, 0.03]`. -/
theorem C2_kelly_fraction_bounds (window : List TradeResult) :
    min_risk ≤ calculate_optimal_fraction window ∧
      calculate_optimal_fraction window ≤ max_risk := by
  unfold calculate_optimal_fraction
  dsimp only
  split_ifs <;> constructor <;> norm_num [min_risk, max_risk, default_risk]

/-- C8 counterexample: a 50-row DataFrame leaves only 17 usable feature rows
(fewer than 100), yet `detect_regime` does not return via the rule-based
classification path — it returns UNKNOWN from the too-few-features early
return instead. -/
theorem C8_counterexample :
    (detect_regime 50 (some short_feature_rows) false false none
        Instrument.gbp_usd).2 ≠ DetectPath.rule_based
    ∧ short_feature_rows.length < 100 := by
  constructor
  · decide
  · decide

/-- C8 amended: on a not-yet-fitted detector, an input with at least 50
DataFrame rows and between 20 and 99 usable feature rows always returns via
the rule-based classification path, applied to the last feature row; with
fewer than 50 rows or fewer than 20 usable feature rows it returns UNKNOWN
from the guarded early returns.  In all cases `detect_regime` is a total
function (every Python exception is caught inside it), so it never raises. -/
theorem C8_rule_based_fallback (df_rows : ℕ) (fs : List FeatRow) (last : FeatRow)
    (fit_ok : Bool) (gmm_pred : Option (ℕ × ℚ)) (inst : Instrument)
    (h50 : 50 ≤ df_rows) (h20 : 20 ≤ fs.length) (h100 : fs.length < 100)
    (hlast : fs.getLast? = some last) :
    detect_regime df_rows (some fs) false fit_ok gmm_pred inst
      = (rule_based_regime_detection last inst, DetectPath.rule_based) := by
  have h1 : ¬ df_rows < 50 := by omega
  have h2 : ¬ fs.length < 20 := by omega
  simp only [detect_regime, if_neg h1, if_neg h2, hlast]
  have h3 : ¬ (True ∧ 100 ≤ fs.length ∧ fit_ok = false) := by
    rintro ⟨-, h, -⟩
    omega
  have h4 : ¬ (false = true ∨ (100 ≤ fs.length ∧ fit_ok = true)) := by
    rintro (h | ⟨h, -⟩)
    · exact Bool.noConfusion h
    · omega
  rw [if_neg h3, if_neg h4]

/-- C8 witness: a concrete 20-row feature frame on an unfitted detector goes
through the rule-based path. -/
theorem C8_rule_based_fallback_witness :
    detect_regime 120 (some (List.replicate 20 (⟨30, 1/500, 1⟩ : FeatRow))) false false
        none Instrument.gbp_usd
      = (rule_based_regime_detection ⟨30, 1/500, 1⟩ Instrument.gbp_usd,
         DetectPath.rule_based) :=
  C8_rule_based_fallback 120 _ _ false none Instrument.gbp_usd
    (by decide) (by decide) (by decide) rfl

/-- C3 counterexample: per-timeframe votes M5 (1, 1), M15 (1, 1.2), H1 (6, 0)
give directions NEUTRAL, NEUTRAL, BUY and an aggregate BUY decision that
passes all filters, yet the engine's agreement is 2/3 — the share of the most
common direction, NEUTRAL — while the fraction of timeframes matching the
aggregate BUY direction is 1/3. -/
theorem C3_counterexample :
    (generate_multi_timeframe_signal (5/2) 35 mixed_direction_input
        MarketRegime.unknown).agreement
      ≠ spec_agreement mixed_direction_input
          (generate_multi_timeframe_signal (5/2) 35 mixed_direction_input
            MarketRegime.unknown).signal := by
  have h1 : (generate_multi_timeframe_signal (5/2) 35 mixed_direction_input
      MarketRegime.unknown).agreement = 2/3 := by
    norm_num +decide [generate_multi_timeframe_signal, calculate_voting_agreement,
      present_timeframes, tf_direction, mixed_direction_input, mk_analysis, sample_latest,
      m5_weight, m15_weight, h1_weight, List.count, List.countP_cons, List.countP_nil]
  have h2 : (generate_multi_timeframe_signal (5/2) 35 mixed_direction_input
      MarketRegime.unknown).signal = SignalType.buy := by
    norm_num +decide [generate_multi_timeframe_signal, vote_decision, pre_strength,
      avg_buy_votes, avg_sell_votes, total_weight, present_timeframes, apply_signal_filters,
      mixed_direction_input, mk_analysis, sample_latest, m5_weight, m15_weight, h1_weight]
  have h3 : spec_agreement mixed_direction_input SignalType.buy = 1/3 := by
    norm_num +decide [spec_agreement, present_timeframes, tf_direction, mixed_direction_input,
      mk_analysis, sample_latest, m5_weight, m15_weight, h1_weight, List.count,
      List.countP_cons, List.countP_nil]
  rw [h1, h2, h3]
  norm_num

/-- C3 amended: for every set of per-timeframe analyses, the aggregator's
agreement equals the fraction of present timeframes holding the most common
of the three directions BUY / SELL / NEUTRAL (a timeframe whose buy and sell
votes differ by 0.5 or less counts as NEUTRAL), independently of the
aggregate signal direction; the value always lies in [0, 1]. -/
theorem C3_agreement_most_common_share (minV minS : ℚ) (d : MTFInput)
    (regime : MarketRegime) :
    (generate_multi_timeframe_signal minV minS d regime).agreement
      = most_common_direction_fraction
          ((present_timeframes d).map (fun wa => tf_direction wa.2))
    ∧ 0 ≤ (generate_multi_timeframe_signal minV minS d regime).agreement
    ∧ (generate_multi_timeframe_signal minV minS d regime).agreement ≤ 1 := by
  refine ⟨rfl, ?_, ?_⟩
  · show 0 ≤ calculate_voting_agreement d
    unfold calculate_voting_agreement
    dsimp only
    split_ifs with h
    · exact le_refl 0
    · positivity
  · show calculate_voting_agreement d ≤ 1
    unfold calculate_voting_agreement
    dsimp only
    split_ifs with h
    · norm_num
    · set dirs := (present_timeframes d).map (fun wa => tf_direction wa.2) with hdirs
      have hlen : 0 < (dirs.length : ℚ) := by
        exact_mod_cast List.length_pos.mpr h
      rw [div_le_one hlen]
      have hcount : max (dirs.count TFDirection.buy)
          (max (dirs.count TFDirection.sell) (dirs.count TFDirection.neutral))
            ≤ dirs.length :=
        max_le (List.count_le_length _ _)
          (max_le (List.count_le_length _ _) (List.count_le_length _ _))
      exact_mod_cast hcount

/-- C7 counterexample: with every timeframe voting buy 1 / sell 0 the average
buy votes are 1 ≠ 0 and the dominant-average formula gives 50/3 ≠ 0, yet the
returned strength of the NO_ACTION result is 0 — the rejected result does not
carry the nonzero diagnostic strength the claim asserts. -/
theorem C7_counterexample :
    (generate_multi_timeframe_signal (5/2) 35 weak_votes_input
        MarketRegime.unknown).strength = 0
    ∧ avg_buy_votes weak_votes_input ≠ 0
    ∧ max (avg_buy_votes weak_votes_input) (avg_sell_votes weak_votes_input) / 6 * 100
        ≠ 0 := by
  refine ⟨?_, ?_, ?_⟩ <;>
    norm_num +decide [generate_multi_timeframe_signal, vote_decision, pre_strength,
      avg_buy_votes, avg_sell_votes, total_weight, present_timeframes, apply_signal_filters,
      weak_votes_input, mk_analysis, sample_latest, m5_weight, m15_weight, h1_weight]

/-- C7 amended: the strength computed alongside the vote decision is always
the dominant-average formula `max(avg_buy, avg_sell)/6 × 100`, including on a
NO_ACTION decision — but the returned strength is zeroed whenever the filter
gate fails, which includes every NO_ACTION decision, and the returned signal
is then NO_ACTION.  The raw diagnostics (ATR%, ADX, pre-filter strength, with
the per-filter booleans and reasons) are preserved in `filter_results` for
directional decisions; a NO_ACTION decision instead yields the fixed
diagnostics record with reason no-signal-generated and all booleans false. -/
theorem C7_strength_policy (minV minS : ℚ) (d : MTFInput) (regime : MarketRegime) :
    pre_strength minV d = max (avg_buy_votes d) (avg_sell_votes d) / 6 * 100
    ∧ ((generate_multi_timeframe_signal minV minS d regime).passed_filters = false →
        (generate_multi_timeframe_signal minV minS d regime).strength = 0
        ∧ (generate_multi_timeframe_signal minV minS d regime).signal = SignalType.no_action)
    ∧ (vote_decision minV d = SignalType.no_action →
        (generate_multi_timeframe_signal minV minS d regime).filter_results =
          { passed := false, reasons := [FilterReason.no_signal_generated],
            volatility_ok := false, strength_ok := false, adx_ok := false,
            spread_ok := false, raw := none })
    ∧ (∀ a : TFAnalysis, d.m5 = some a → vote_decision minV d ≠ SignalType.no_action →
        (generate_multi_timeframe_signal minV minS d regime).filter_results.raw =
          some (latest_atr_pct a, latest_adx a, pre_strength minV d)) := by
  refine ⟨?_, ?_, ?_, ?_⟩
  · unfold pre_strength vote_decision
    split_ifs with h1 h2
    · show avg_buy_votes d / 6 * 100 = max (avg_buy_votes d) (avg_sell_votes d) / 6 * 100
      rw [max_eq_left h1.2.le]
    · show avg_sell_votes d / 6 * 100 = max (avg_buy_votes d) (avg_sell_votes d) / 6 * 100
      rw [max_eq_right h2.2.le]
    · rfl
  · intro h
    unfold generate_multi_timeframe_signal at h ⊢
    dsimp only at h ⊢
    rw [h]
    constructor <;> rfl
  · intro h
    unfold generate_multi_timeframe_signal
    dsimp only
    rw [h]
    unfold apply_signal_filters
    rw [if_pos rfl]
  · intro a hm5 hdec
    unfold generate_multi_timeframe_signal
    dsimp only
    rw [hm5]
    unfold apply_signal_filters
    rw [if_neg hdec]
    rfl

/-- C7 witness: the amended statement instantiated at the weak-votes input
(NO_ACTION path) and at the mixed-direction input (directional path with its
raw diagnostics). -/
theorem C7_strength_policy_witness :
    ((generate_multi_timeframe_signal (5/2) 35 weak_votes_input
        MarketRegime.unknown).strength = 0
      ∧ (generate_multi_timeframe_signal (5/2) 35 weak_votes_input
          MarketRegime.unknown).signal = SignalType.no_action)
    ∧ (generate_multi_timeframe_signal (5/2) 35 weak_votes_input
        MarketRegime.unknown).filter_results =
        { passed := false, reasons := [FilterReason.no_signal_generated],
          volatility_ok := false, strength_ok := false, adx_ok := false,
          spread_ok := false, raw := none }
    ∧ (generate_multi_timeframe_signal (5/2) 35 mixed_direction_input
        MarketRegime.unknown).filter_results.raw =
        some (latest_atr_pct (mk_analysis 1 1 (some sample_latest)),
          latest_adx (mk_analysis 1 1 (some sample_latest)),
          pre_strength (5/2) mixed_direction_input) := by
  refine ⟨(C7_strength_policy (5/2) 35 weak_votes_input MarketRegime.unknown).2.1 ?_,
    (C7_strength_policy (5/2) 35 weak_votes_input MarketRegime.unknown).2.2.1 ?_,
    (C7_strength_policy (5/2) 35 mixed_direction_input MarketRegime.unknown).2.2.2
      (mk_analysis 1 1 (some sample_latest)) rfl ?_⟩
  · norm_num +decide [generate_multi_timeframe_signal, vote_decision, pre_strength,
      avg_buy_votes, avg_sell_votes, total_weight, present_timeframes, apply_signal_filters,
      weak_votes_input, mk_analysis, sample_latest, m5_weight, m15_weight, h1_weight]
  · norm_num +decide [vote_decision, avg_buy_votes, avg_sell_votes, total_weight,
      present_timeframes, weak_votes_input, mk_analysis, sample_latest, m5_weight,
      m15_weight, h1_weight]
  · norm_num +decide [vote_decision, avg_buy_votes, avg_sell_votes, total_weight,
      present_timeframes, mixed_direction_input, mk_analysis, sample_latest, m5_weight,
      m15_weight, h1_weight]

/-- C5: once the generator's history ends in a tradeable (accepted) signal,
any later `generate_signal` request for the instrument whose timestamp lies
strictly inside the 4-hour cooldown window returns the SKIP result with the
cooldown reason and an unchanged state — for every injected market data `d`
and every regime, i.e. regardless of underlying signal quality and without
re-running the regime/voting analysis. -/
theorem C5_cooldown_short_circuit (cfg : GenConfig) (st : GenState) (now : ℚ)
    (inst : Instrument) (price : ℚ) (d : MTFInput) (regime : MarketRegime)
    (e : HistoryEntry)
    (hlast : st.history.getLast? = some e) (htr : e.tradeable = true)
    (h0 : 0 < now - e.timestamp) (h4 : now - e.timestamp < 4)
    (hm5 : d.m5 ≠ none) :
    generate_signal cfg st now inst price d regime
      = some (.skip .cooldown_active, st) := by
  have hcd : cooldown_active st now = true := by
    unfold cooldown_active
    rw [hlast]
    dsimp only
    rw [htr]
    simp [h0, h4]
  unfold generate_signal
  rw [if_neg hm5, if_pos hcd]

/-- C5 witness: a tradeable signal at hour 0 forces the request at hour 1 into
the cooldown SKIP, even though the injected data would vote strongly. -/
theorem C5_cooldown_witness :
    generate_signal ⟨5/2, 35⟩ ⟨[⟨0, true⟩]⟩ 1 Instrument.gbp_usd 1 weak_votes_input
        MarketRegime.unknown
      = some (.skip .cooldown_active, ⟨[⟨0, true⟩]⟩) :=
  C5_cooldown_short_circuit ⟨5/2, 35⟩ ⟨[⟨0, true⟩]⟩ 1 Instrument.gbp_usd 1
    weak_votes_input MarketRegime.unknown ⟨0, true⟩ rfl rfl
    (by norm_num) (by norm_num) (by simp [weak_votes_input])

/-- Helper: `add_trade_result` with zero profit-loss appends exactly the
zero-P&L record (not a win, full risk as loss amount) and applies the deque
bound. -/
theorem add_trade_result_zero_pl (window : List TradeResult) (lookback : ℕ) (risk : ℚ) :
    add_trade_result window lookback 0 risk
      = (window ++ [zero_pl_record risk]).drop ((window.length + 1) - lookback) := by
  unfold add_trade_result zero_pl_record
  dsimp only
  norm_num [List.length_append]

/-- Helper: the zero-P&L record never counts towards the win total. -/
theorem wins_append_zero_pl (window : List TradeResult) (risk : ℚ) :
    wins (window ++ [zero_pl_record risk]) = wins window := by
  unfold wins
  rw [List.filter_append]
  simp [zero_pl_record]

/-- C10: recording a trade with `profit_loss = 0` stores a loss whose
`loss_amount` is the full `risk_amount`: in every reachable window state
(`window.length ≤ lookback`, `1 ≤ lookback`) the appended record is the
zero-P&L loss record, the computed win rate never increases — strictly
decreasing whenever the window is below capacity and holds at least one win —
and the record lands among the losing trades whose `loss_amount` feeds the
average-loss denominator; it is never counted as a win. -/
theorem C10_zero_pl_counted_as_loss (window : List TradeResult) (lookback : ℕ)
    (risk : ℚ) (hlen : window.length ≤ lookback) (hlb : 1 ≤ lookback) :
    (add_trade_result window lookback 0 risk).getLast? = some (zero_pl_record risk)
    ∧ win_rate (add_trade_result window lookback 0 risk) ≤ win_rate window
    ∧ (window.length < lookback → 0 < wins window →
        win_rate (add_trade_result window lookback 0 risk) < win_rate window)
    ∧ zero_pl_record risk
        ∈ (add_trade_result window lookback 0 risk).filter (fun t => !t.win) := by
  rw [add_trade_result_zero_pl]
  by_cases hlt : window.length < lookback
  · have hk : (window.length + 1) - lookback = 0 := by omega
    rw [hk, List.drop_zero]
    refine ⟨List.getLast?_concat _, ?_, ?_, ?_⟩
    · by_cases hN : window.length = 0
      · have he : window = [] := List.length_eq_zero.mp hN
        subst he
        simp [win_rate, wins, zero_pl_record]
      · unfold win_rate
        rw [if_neg (by simp), if_neg hN, wins_append_zero_pl, List.length_append]
        push_cast
        have hNQ : (0:ℚ) < (window.length : ℚ) := by
          exact_mod_cast Nat.pos_of_ne_zero hN
        have hW : (0:ℚ) ≤ (wins window : ℚ) := by positivity
        gcongr
        linarith
    · intro _ hwins
      have hN : window.length ≠ 0 := by
        intro h
        have he : window = [] := List.length_eq_zero.mp h
        subst he
        simp [wins] at hwins
      unfold win_rate
      rw [if_neg (by simp), if_neg hN, wins_append_zero_pl, List.length_append,
        List.length_singleton]
      push_cast
      have hNQ : (0:ℚ) < (window.length : ℚ) := by
        exact_mod_cast Nat.pos_of_ne_zero hN
      have hW : (0:ℚ) < (wins window : ℚ) := by exact_mod_cast hwins
      apply div_lt_div_of_pos_left hW hNQ
      linarith
    · refine List.mem_filter.mpr ⟨List.mem_append_right _ (List.mem_singleton_self _), ?_⟩
      simp [zero_pl_record]
  · have heq : window.length = lookback := by omega
    have hk : (window.length + 1) - lookback = 1 := by omega
    have hne : window ≠ [] := by
      intro h
      subst h
      simp at heq
      omega
    obtain ⟨a, t, rfl⟩ := List.exists_cons_of_ne_nil hne
    rw [hk]
    have hdrop : (a :: t ++ [zero_pl_record risk]).drop 1 = t ++ [zero_pl_record risk] := rfl
    rw [hdrop]
    have hlen2 : (t ++ [zero_pl_record risk]).length = (a :: t).length := by
      simp
    refine ⟨List.getLast?_concat _, ?_, ?_, ?_⟩
    · unfold win_rate
      rw [if_neg (by simp), if_neg (by simp), wins_append_zero_pl]
      have hwt : wins t ≤ wins (a :: t) := by
        unfold wins
        rw [List.filter_cons]
        split_ifs <;> simp
      rw [hlen2]
      gcongr
    · intro hcontra
      omega
    · refine List.mem_filter.mpr ⟨List.mem_append_right _ (List.mem_singleton_self _), ?_⟩
      simp [zero_pl_record]

/-- C10 witness: a window holding one win, zero-P&L trade recorded with risk
7 — the record is the full-risk loss, the win rate drops from 1 to 1/2, and
the record sits among the losing trades. -/
theorem C10_zero_pl_witness :
    (add_trade_result [⟨true, 1, 1, 0, 1⟩] 50 0 7).getLast? = some (zero_pl_record 7)
    ∧ win_rate (add_trade_result [⟨true, 1, 1, 0, 1⟩] 50 0 7)
        ≤ win_rate [⟨true, 1, 1, 0, 1⟩]
    ∧ (([⟨true, 1, 1, 0, 1⟩] : List TradeResult).length < 50 →
        0 < wins [⟨true, 1, 1, 0, 1⟩] →
        win_rate (add_trade_result [⟨true, 1, 1, 0, 1⟩] 50 0 7)
          < win_rate [⟨true, 1, 1, 0, 1⟩])
    ∧ zero_pl_record 7
        ∈ (add_trade_result [⟨true, 1, 1, 0, 1⟩] 50 0 7).filter (fun t => !t.win) :=
  C10_zero_pl_counted_as_loss [⟨true, 1, 1, 0, 1⟩] 50 7 (by decide) (by decide)

/-- C1 counterexample: with an open BUY position (stop 0.985), a bar whose low
0.98 touches the stop-loss level but whose close 1.0 does not is simply held —
the loop's exit check reads only the close, so no trade is recorded and the
position survives the bar, contradicting the low/high-based exit the claim
describes. -/
theorem C1_counterexample :
    (bt_step (monotonicity_cfg 2) held_state touching_low_bar).open_position
        = some held_buy_position
    ∧ (bt_step (monotonicity_cfg 2) held_state touching_low_bar).trades = []
    ∧ touching_low_bar.bar.low ≤ held_buy_position.stop_loss := by
  have hupd : update_position held_state 1 1 = held_state := by
    unfold update_position held_state held_buy_position init_state
    norm_num
  have hstep : bt_step (monotonicity_cfg 2) held_state touching_low_bar = held_state := by
    unfold bt_step touching_low_bar
    dsimp only
    rw [show held_state.open_position = some held_buy_position from rfl]
    dsimp only
    rw [hupd]
    rw [show held_state.open_position = some held_buy_position from rfl]
  rw [hstep]
  refine ⟨rfl, rfl, ?_⟩
  show (49:ℚ)/50 ≤ 197/200
  norm_num

/-- C1 amended: the exit check of `_update_position` uses the bar's close
price only.  For an open BUY position: close at or below the stop level
closes the trade at the stop price; otherwise close at or above the
take-profit level closes it at the take-profit price; otherwise it is held —
and symmetrically for a SELL position.  Stop-loss has priority over
take-profit, but a low (resp. high) that touches the level without the close
reaching it does not trigger an exit. -/
theorem C1_exit_check_uses_close (st : BTState) (pos : Position) (c t : ℚ)
    (hopen : st.open_position = some pos) :
    (pos.direction = .buy →
        (c ≤ pos.stop_loss →
          update_position st c t = close_trade st pos.stop_loss t .stop_loss)
        ∧ (pos.stop_loss < c → pos.take_profit ≤ c →
          update_position st c t = close_trade st pos.take_profit t .take_profit)
        ∧ (pos.stop_loss < c → c < pos.take_profit → update_position st c t = st))
    ∧ (pos.direction ≠ .buy →
        (pos.stop_loss ≤ c →
          update_position st c t = close_trade st pos.stop_loss t .stop_loss)
        ∧ (c < pos.stop_loss → c ≤ pos.take_profit →
          update_position st c t = close_trade st pos.take_profit t .take_profit)
        ∧ (c < pos.stop_loss → pos.take_profit < c → update_position st c t = st)) := by
  unfold update_position
  rw [hopen]
  dsimp only
  constructor
  · intro hdir
    rw [if_pos hdir]
    refine ⟨?_, ?_, ?_⟩
    · intro h1
      rw [if_pos h1]
    · intro h1 h2
      rw [if_neg (not_le.mpr h1), if_pos h2]
    · intro h1 h2
      rw [if_neg (not_le.mpr h1), if_neg (not_le.mpr h2)]
  · intro hdir
    rw [if_neg hdir]
    refine ⟨?_, ?_, ?_⟩
    · intro h1
      rw [if_pos h1]
    · intro h1 h2
      rw [if_neg (not_le.mpr h1), if_pos h2]
    · intro h1 h2
      rw [if_neg (not_le.mpr h1), if_neg (not_le.mpr h2)]

/-- C1 witness: the held BUY position closes at its stop price 0.985 when the
close is 0.9, and is held when the close is 1. -/
theorem C1_exit_witness :
    update_position held_state (9/10) 2
        = close_trade held_state (197/200) 2 ExitReason.stop_loss
    ∧ update_position held_state 1 2 = held_state :=
  ⟨((C1_exit_check_uses_close held_state held_buy_position (9/10) 2 rfl).1 rfl).1
      (by norm_num [held_buy_position]),
   ((C1_exit_check_uses_close held_state held_buy_position 1 2 rfl).1 rfl).2.2
      (by norm_num [held_buy_position]) (by norm_num [held_buy_position])⟩

/-- Helper: `_close_trade` never touches the accepted-signal counter. -/
theorem close_trade_signals_accepted (st : BTState) (p t : ℚ) (r : ExitReason) :
    (close_trade st p t r).signals_accepted = st.signals_accepted := by
  unfold close_trade
  rcases h : st.open_position with _ | pos <;> simp

/-- Helper: threshold-2 run, bar 0 — votes 2.2 pass the threshold 2 and every
filter, so a position opens (stop 0.985, take-profit 1.03). -/
theorem mono2_step_bar0 :
    bt_step (monotonicity_cfg 2) (init_state 10000) mono_bar0 = mono2_state := by
  norm_num +decide [bt_step, try_signal, generate_signal, cooldown_active,
    generate_multi_timeframe_signal, vote_decision, pre_strength, avg_buy_votes,
    avg_sell_votes, total_weight, present_timeframes, calculate_voting_agreement,
    tf_direction, apply_signal_filters, should_trade, calculate_sltp, sl_dollars,
    tp_dollars, open_trade, update_position, close_trade, init_state, mono_bar0,
    mono2_state, mono2_pos, monotonicity_cfg, strong_votes_input, mk_analysis,
    m5_weight, m15_weight, h1_weight, List.count, List.countP_cons, List.countP_nil,
    abs_of_pos, abs_of_nonneg]

/-- Helper: threshold-2 run, bar 1 — the close 1 stays inside the open
position's levels, so the bar only runs the exit check and is skipped. -/
theorem mono2_step_bar1 :
    bt_step (monotonicity_cfg 2) mono2_state mono_bar1 = mono2_state := by
  norm_num +decide [bt_step, try_signal, generate_signal, cooldown_active,
    generate_multi_timeframe_signal, vote_decision, pre_strength, avg_buy_votes,
    avg_sell_votes, total_weight, present_timeframes, calculate_voting_agreement,
    tf_direction, apply_signal_filters, should_trade, calculate_sltp, sl_dollars,
    tp_dollars, open_trade, update_position, close_trade, init_state, mono_bar1,
    mono2_state, mono2_pos, monotonicity_cfg, strong_votes_input, mk_analysis,
    m5_weight, m15_weight, h1_weight, List.count, List.countP_cons, List.countP_nil,
    abs_of_pos, abs_of_nonneg]

/-- Helper: threshold-2 run, bar 2 — the close 0.998 still lies strictly
between stop 0.985 and take-profit 1.03, so the position is held and the
strongly voting bar is never analyzed. -/
theorem mono2_step_bar2 :
    bt_step (monotonicity_cfg 2) mono2_state mono_bar2 = mono2_state := by
  norm_num +decide [bt_step, try_signal, generate_signal, cooldown_active,
    generate_multi_timeframe_signal, vote_decision, pre_strength, avg_buy_votes,
    avg_sell_votes, total_weight, present_timeframes, calculate_voting_agreement,
    tf_direction, apply_signal_filters, should_trade, calculate_sltp, sl_dollars,
    tp_dollars, open_trade, update_position, close_trade, init_state, mono_bar2,
    mono2_state, mono2_pos, monotonicity_cfg, strong_votes_input, mk_analysis,
    m5_weight, m15_weight, h1_weight, List.count, List.countP_cons, List.countP_nil,
    abs_of_pos, abs_of_nonneg]

/-- Helper: threshold-3 run, bar 0 — votes 2.2 miss the threshold 3, the
decision is NO_ACTION with zeroed strength, and the bar is skipped without
any state change. -/
theorem mono3_step_bar0 :
    bt_step (monotonicity_cfg 3) (init_state 10000) mono_bar0 = init_state 10000 := by
  norm_num +decide [bt_step, try_signal, generate_signal, cooldown_active,
    generate_multi_timeframe_signal, vote_decision, pre_strength, avg_buy_votes,
    avg_sell_votes, total_weight, present_timeframes, calculate_voting_agreement,
    tf_direction, apply_signal_filters, should_trade, calculate_sltp, sl_dollars,
    tp_dollars, open_trade, update_position, close_trade, init_state, mono_bar0,
    monotonicity_cfg, strong_votes_input, mk_analysis,
    m5_weight, m15_weight, h1_weight, List.count, List.countP_cons, List.countP_nil,
    abs_of_pos, abs_of_nonneg]

/-- Helper: threshold-3 run, bar 1 — votes 5 pass, a position opens with stop
0.9985. -/
theorem mono3_step_bar1 :
    bt_step (monotonicity_cfg 3) (init_state 10000) mono_bar1 = mono3_state1 := by
  norm_num +decide [bt_step, try_signal, generate_signal, cooldown_active,
    generate_multi_timeframe_signal, vote_decision, pre_strength, avg_buy_votes,
    avg_sell_votes, total_weight, present_timeframes, calculate_voting_agreement,
    tf_direction, apply_signal_filters, should_trade, calculate_sltp, sl_dollars,
    tp_dollars, open_trade, update_position, close_trade, init_state, mono_bar1,
    mono3_state1, mono3_pos1, monotonicity_cfg, strong_votes_input, mk_analysis,
    m5_weight, m15_weight, h1_weight, List.count, List.countP_cons, List.countP_nil,
    abs_of_pos, abs_of_nonneg]

/-- Helper: threshold-3 run, bar 2 — the close 0.998 hits the stop 0.9985, the
trade closes at −200, and on the same bar (the cooldown having expired 5 hours
after bar 1) a second signal is accepted and a new position opens. -/
theorem mono3_step_bar2 :
    bt_step (monotonicity_cfg 3) mono3_state1 mono_bar2 = mono3_state3 := by
  norm_num +decide [bt_step, try_signal, generate_signal, cooldown_active,
    generate_multi_timeframe_signal, vote_decision, pre_strength, avg_buy_votes,
    avg_sell_votes, total_weight, present_timeframes, calculate_voting_agreement,
    tf_direction, apply_signal_filters, should_trade, calculate_sltp, sl_dollars,
    tp_dollars, open_trade, update_position, close_trade, init_state, mono_bar2,
    mono3_state1, mono3_pos1, mono3_state2, mono3_trade, mono3_state3, mono3_pos2,
    monotonicity_cfg, strong_votes_input, mk_analysis,
    m5_weight, m15_weight, h1_weight, List.count, List.countP_cons, List.countP_nil,
    abs_of_pos, abs_of_nonneg]

/-- Helper: the threshold-2 run over the fixture accepts exactly one signal. -/
theorem mono2_accepted_count :
    (run_backtest (monotonicity_cfg 2) 10000 monotonicity_bars).signals_accepted = 1 := by
  unfold run_backtest monotonicity_bars
  rw [List.foldl_cons, List.foldl_cons, List.foldl_cons, List.foldl_nil,
    mono2_step_bar0, mono2_step_bar1, mono2_step_bar2]
  rw [show ([mono_bar0, mono_bar1, mono_bar2] : List BarData).getLast? = some mono_bar2 from
    rfl]
  dsimp only [mono2_state]
  rw [close_trade_signals_accepted]

/-- Helper: the threshold-3 run over the same fixture accepts two signals. -/
theorem mono3_accepted_count :
    (run_backtest (monotonicity_cfg 3) 10000 monotonicity_bars).signals_accepted = 2 := by
  unfold run_backtest monotonicity_bars
  rw [List.foldl_cons, List.foldl_cons, List.foldl_cons, List.foldl_nil,
    mono3_step_bar0, mono3_step_bar1, mono3_step_bar2]
  rw [show ([mono_bar0, mono_bar1, mono_bar2] : List BarData).getLast? = some mono_bar2 from
    rfl]
  dsimp only [mono3_state3, mono3_state2, mono3_pos2]
  rw [close_trade_signals_accepted]

/-- C4 counterexample: over the fixed three-bar candle fixture with otherwise
identical configuration, raising `min_votes_required` from 2 to 3 raises the
number of ACCEPTED signals from 1 to 2: with the looser threshold the bar-0
position stays open through the strongly voting later bars, while the
stricter run rejects bar 0, trades bar 1, is stopped out and trades again on
bar 2. -/
theorem C4_counterexample :
    (run_backtest (monotonicity_cfg 2) 10000 monotonicity_bars).signals_accepted = 1
    ∧ (run_backtest (monotonicity_cfg 3) 10000 monotonicity_bars).signals_accepted = 2
    ∧ ¬((run_backtest (monotonicity_cfg 3) 10000 monotonicity_bars).signals_accepted
        ≤ (run_backtest (monotonicity_cfg 2) 10000 monotonicity_bars).signals_accepted) := by
  refine ⟨mono2_accepted_count, mono3_accepted_count, ?_⟩
  rw [mono2_accepted_count, mono3_accepted_count]
  omega

/-- Helper: a directional vote decision at a threshold stays the same
directional decision at any lower threshold. -/
theorem vote_decision_antitone (v1 v2 : ℚ) (d : MTFInput) (hle : v1 ≤ v2)
    (hdec : vote_decision v2 d ≠ .no_action) :
    vote_decision v1 d = vote_decision v2 d := by
  unfold vote_decision at *
  by_cases h1 : v2 ≤ avg_buy_votes d ∧ avg_sell_votes d < avg_buy_votes d
  · rw [if_pos h1, if_pos ⟨hle.trans h1.1, h1.2⟩]
  · rw [if_neg h1] at hdec ⊢
    by_cases h2 : v2 ≤ avg_sell_votes d ∧ avg_buy_votes d < avg_sell_votes d
    · rw [if_pos h2]
      rw [if_neg (fun hc => absurd h2.2 (not_lt.mpr hc.2.le)),
        if_pos ⟨hle.trans h2.1, h2.2⟩]
    · exact absurd (if_neg h2) hdec

/-- Helper: a NO_ACTION vote decision always leaves the aggregated result with
zero strength (the quality gate fails it). -/
theorem strength_zero_of_no_action (v minS : ℚ) (d : MTFInput) (regime : MarketRegime)
    (h : vote_decision v d = .no_action) :
    (generate_multi_timeframe_signal v minS d regime).strength = 0 := by
  unfold generate_multi_timeframe_signal
  dsimp only
  rw [h]
  unfold apply_signal_filters
  rw [if_pos rfl]
  simp

/-- Helper: when the stricter threshold still reaches a directional decision,
the whole aggregated signal is identical at any looser threshold. -/
theorem mtf_signal_antitone (v1 v2 minS : ℚ) (d : MTFInput) (regime : MarketRegime)
    (hle : v1 ≤ v2) (hdec : vote_decision v2 d ≠ .no_action) :
    generate_multi_timeframe_signal v1 minS d regime
      = generate_multi_timeframe_signal v2 minS d regime := by
  have hd := vote_decision_antitone v1 v2 d hle hdec
  unfold generate_multi_timeframe_signal pre_strength
  rw [hd]

/-- C4 amended: per request, acceptance is antitone in `min_votes_required` —
with the generator state, timestamp and injected analyses fixed, a signal
accepted at threshold `v2` is returned identically (still accepted, same
levels, same new state) at any threshold `v1 ≤ v2`.  Over a full stateful
backtest run, however, the ACCEPTED count need not be monotone (see the
counterexample): accepting a signal suppresses later bars through the open
position and the 4-hour cooldown. -/
theorem C4_accept_antitone (v1 v2 minS : ℚ) (st : GenState) (now : ℚ)
    (inst : Instrument) (price : ℚ) (d : MTFInput) (regime : MarketRegime)
    (hle : v1 ≤ v2)
    (hacc : is_accepted (generate_signal ⟨v2, minS⟩ st now inst price d regime) = true) :
    generate_signal ⟨v1, minS⟩ st now inst price d regime
      = generate_signal ⟨v2, minS⟩ st now inst price d regime := by
  have hnd : vote_decision v2 d ≠ .no_action := by
    intro hno
    unfold generate_signal at hacc
    dsimp only at hacc
    by_cases hm5 : d.m5 = none
    · rw [if_pos hm5] at hacc
      simp [is_accepted] at hacc
    · rw [if_neg hm5] at hacc
      by_cases hcd : cooldown_active st now = true
      · rw [if_pos hcd] at hacc
        simp [is_accepted] at hacc
      · rw [if_neg hcd] at hacc
        by_cases hst : should_trade regime = false
        · rw [if_pos hst] at hacc
          simp [is_accepted] at hacc
        · rw [if_neg hst] at hacc
          rw [strength_zero_of_no_action v2 minS d regime hno] at hacc
          rw [if_pos (by norm_num : (0:ℚ) < 25)] at hacc
          simp [is_accepted] at hacc
  unfold generate_signal
  dsimp only
  rw [mtf_signal_antitone v1 v2 minS d regime hle hnd]

/-- C4 witness: a request accepted at threshold 3 produces the identical
result at threshold 2. -/
theorem C4_accept_antitone_witness :
    generate_signal ⟨2, 30⟩ ⟨[]⟩ 1 Instrument.gbp_usd 1 (strong_votes_input 5 (1/1000))
        MarketRegime.trending_up_low_vol
      = generate_signal ⟨3, 30⟩ ⟨[]⟩ 1 Instrument.gbp_usd 1 (strong_votes_input 5 (1/1000))
        MarketRegime.trending_up_low_vol :=
  C4_accept_antitone 2 3 30 ⟨[]⟩ 1 Instrument.gbp_usd 1 (strong_votes_input 5 (1/1000))
    MarketRegime.trending_up_low_vol (by norm_num)
    (by norm_num +decide [generate_signal, cooldown_active, generate_multi_timeframe_signal,
      vote_decision, pre_strength, avg_buy_votes, avg_sell_votes, total_weight,
      present_timeframes, calculate_voting_agreement, tf_direction, apply_signal_filters,
      should_trade, calculate_sltp, sl_dollars, tp_dollars, strong_votes_input, mk_analysis,
      m5_weight, m15_weight, h1_weight, List.count, List.countP_cons, List.countP_nil,
      is_accepted])

/-- Helper: `_close_trade` moves exactly the recorded trade's P&L into the
balance, so the balance-minus-recorded-P&L quantity is untouched. -/
theorem close_trade_conservation (st : BTState) (p t : ℚ) (r : ExitReason) :
    (close_trade st p t r).balance - (((close_trade st p t r).trades.map
        (fun tr => tr.pnl)).sum)
      = st.balance - ((st.trades.map (fun tr => tr.pnl)).sum) := by
  rcases h : st.open_position with _ | pos
  · simp only [close_trade, h]
  · simp only [close_trade, h]
    rw [List.map_append, List.sum_append]
    simp

/-- Helper: the per-bar exit check preserves balance-minus-recorded-P&L. -/
theorem update_position_conservation (st : BTState) (c t : ℚ) :
    (update_position st c t).balance - (((update_position st c t).trades.map
        (fun tr => tr.pnl)).sum)
      = st.balance - ((st.trades.map (fun tr => tr.pnl)).sum) := by
  rcases h : st.open_position with _ | pos
  · simp only [update_position, h]
  · simp only [update_position, h]
    split_ifs <;> first | rfl | apply close_trade_conservation

/-- Helper: `_open_trade` never touches the balance or the trade list. -/
theorem open_trade_balance_trades (st : BTState) (dir : SignalType)
    (e t rp atr : ℚ) :
    (open_trade st dir e t rp atr).balance = st.balance
    ∧ (open_trade st dir e t rp atr).trades = st.trades := by
  unfold open_trade
  dsimp only
  split_ifs <;> exact ⟨rfl, rfl⟩

/-- Helper: the signal step preserves balance-minus-recorded-P&L. -/
theorem try_signal_conservation (cfg : BTConfig) (st : BTState) (b : BarData) :
    (try_signal cfg st b).balance - (((try_signal cfg st b).trades.map
        (fun tr => tr.pnl)).sum)
      = st.balance - ((st.trades.map (fun tr => tr.pnl)).sum) := by
  unfold try_signal
  rcases h : generate_signal ⟨cfg.min_votes_required, cfg.min_strength⟩ st.gen b.bar.time
      cfg.instrument b.bar.close b.analysis b.regime with _ | ⟨res, g⟩
  · simp only [h]
  · cases res with
    | skip r => rfl
    | complete dir s atr e sl tp =>
      dsimp only
      obtain ⟨hb, ht⟩ := open_trade_balance_trades
        { st with gen := g, signals_accepted := st.signals_accepted + 1 }
        dir b.bar.close b.bar.time cfg.risk_per_trade atr
      rw [hb, ht]

/-- Helper: each loop iteration preserves balance-minus-recorded-P&L. -/
theorem bt_step_conservation (cfg : BTConfig) (st : BTState) (b : BarData) :
    (bt_step cfg st b).balance - (((bt_step cfg st b).trades.map
        (fun tr => tr.pnl)).sum)
      = st.balance - ((st.trades.map (fun tr => tr.pnl)).sum) := by
  unfold bt_step
  rcases h : st.open_position with _ | pos
  · simp only [h]
    exact try_signal_conservation cfg st b
  · simp only [h]
    rcases h2 : (update_position st b.bar.close b.bar.time).open_position with _ | q
    · simp only [h2]
      exact (try_signal_conservation cfg _ b).trans
        (update_position_conservation st b.bar.close b.bar.time)
    · simp only [h2]
      exact update_position_conservation st b.bar.close b.bar.time

/-- Helper: the whole bar loop preserves balance-minus-recorded-P&L. -/
theorem foldl_conservation (cfg : BTConfig) (bars : List BarData) :
    ∀ st : BTState,
      ((bars.foldl (bt_step cfg) st).balance
          - (((bars.foldl (bt_step cfg) st).trades.map (fun tr => tr.pnl)).sum))
        = st.balance - ((st.trades.map (fun tr => tr.pnl)).sum) := by
  induction bars with
  | nil => intro st; rfl
  | cons b bs ih =>
    intro st
    rw [List.foldl_cons]
    exact (ih _).trans (bt_step_conservation cfg st b)

/-- Helper: if the exit check leaves a position open, it changed nothing (a
close always clears the position slot). -/
theorem update_position_still_open (st : BTState) (c t : ℚ)
    (h : (update_position st c t).open_position ≠ none) :
    update_position st c t = st := by
  rcases ho : st.open_position with _ | pos
  · simp only [update_position, ho]
  · simp only [update_position, ho] at h ⊢
    have hclose : ∀ (p : ℚ) (r : ExitReason),
        (close_trade st p t r).open_position = none := by
      intro p r
      simp only [close_trade, ho]
    split_ifs at h ⊢ <;> first | rfl | (exact absurd (hclose _ _) h)

/-- C6: for every backtest run over any bar sequence, the final balance
equals the initial balance plus the sum of the `pnl` values of all recorded
trades, exactly; and at most one position is open at any bar — the position
slot is a single optional value, and a bar on which the exit check leaves the
position open changes nothing at all (no signal is evaluated, no second
position can be opened over it). -/
theorem C6_conservation_and_single_position (cfg : BTConfig) (initial : ℚ)
    (bars : List BarData) :
    (run_backtest cfg initial bars).balance
        = initial + (((run_backtest cfg initial bars).trades.map (fun tr => tr.pnl)).sum)
    ∧ (∀ (st : BTState) (b : BarData), st.open_position ≠ none →
        (update_position st b.bar.close b.bar.time).open_position ≠ none →
        bt_step cfg st b = st) := by
  constructor
  · have hinit : (init_state initial).balance
        - (((init_state initial).trades.map (fun tr => tr.pnl)).sum) = initial := by
      simp [init_state]
    have hfold := foldl_conservation cfg bars (init_state initial)
    unfold run_backtest
    dsimp only
    rcases h1 : (bars.foldl (bt_step cfg) (init_state initial)).open_position with _ | p <;>
      rcases h2 : bars.getLast? with _ | b <;> simp only [h1, h2]
    · linarith [hfold, hinit]
    · linarith [hfold, hinit]
    · linarith [hfold, hinit]
    · have hc := close_trade_conservation (bars.foldl (bt_step cfg) (init_state initial))
        b.bar.close b.bar.time .end_of_backtest
      linarith [hfold, hinit, hc]
  · intro st b hopen hstill
    have hupd := update_position_still_open st b.bar.close b.bar.time hstill
    unfold bt_step
    rcases ho : st.open_position with _ | pos
    · exact absurd ho hopen
    · simp only [ho]
      rw [hupd]
      simp only [ho]

/-- C6 witness: the threshold-3 fixture run balances exactly (9800 = 10000
− 200 + 0), and a held position passes through a bar unchanged. -/
theorem C6_conservation_witness :
    (run_backtest (monotonicity_cfg 3) 10000 monotonicity_bars).balance
        = 10000 + (((run_backtest (monotonicity_cfg 3) 10000
            monotonicity_bars).trades.map (fun tr => tr.pnl)).sum)
    ∧ bt_step (monotonicity_cfg 3) mono2_state mono_bar1 = mono2_state := by
  refine ⟨(C6_conservation_and_single_position (monotonicity_cfg 3) 10000
      monotonicity_bars).1,
    (C6_conservation_and_single_position (monotonicity_cfg 3) 10000
      monotonicity_bars).2 mono2_state mono_bar1 ?_ ?_⟩
  · simp [mono2_state]
  · norm_num [update_position, mono2_state, mono2_pos, mono_bar1, close_trade]
    simp
